import Mathlib

/-!
# Verification of the parserrtm record-schema codec

Shallow embedding of the `parserrtm` Python package (files `Input.py`,
`longwave.py`, `shortwave.py`): a codec for the fixed-column text formats
(INPUT_RRTM, IN_CLD_RRTM, IN_AER_RRTM) driving the RRTM radiative-transfer
simulator.

Modelling conventions:
* A Python `Input` object's attribute set is a `Doc`: an association list from
  field name to `FieldVal`.  `setattr` updates in place or appends, `getattr`
  looks up.
* Decoded scalars are `Scalar` (ints, strings, and reals carried as exact
  rationals; no arithmetic is ever performed on decoded reals).
* The external `fortranformat` library (an out-of-repo dependency) is
  abstracted as a `Reader` oracle `format string → line → Option (List Scalar)`
  on the read side; on the write side an encoded line is represented as the
  pair of the format string and the value list handed to the writer
  (`Line.recL`).
* Python exceptions are an `Err` inductive; functions that can raise return
  `Except Err _`.  Two `raise` statements in the source interpolate a name
  that is unbound at that point (`fpath` in `get_input_rrtm_file_bounds`,
  `NUMANGS` in `read_in_cld_rrtm`), so Python raises `NameError` while
  building the message, before the intended exception exists; these are
  modelled as `Err.nameError`.  A `return records` where `records` was never
  assigned raises `UnboundLocalError`, modelled as `Err.unboundLocal`.
-/

namespace Parserrtm

/-- A decoded scalar value: integer, string, or real (fortranformat reals are
carried as opaque exact rationals; the codec never computes with them). -/
inductive Scalar
  | i (n : Int)
  | s (str : String)
  | r (q : Rat)
deriving DecidableEq, Repr

/-- An element of a (once-)repeated field's list: either a scalar or, after an
`append depth` merge, an inner list of scalars. -/
inductive Elem
  | s (v : Scalar)
  | l (vs : List Scalar)
deriving DecidableEq, Repr

/-- The value of one attribute of the in-memory document: a scalar or a list
(whose elements may themselves be inner lists, see `Elem`). -/
inductive FieldVal
  | sc (v : Scalar)
  | ls (xs : List Elem)
deriving DecidableEq, Repr

/-- The document: Python object attributes as an association list.  Insertion
order is kept, matching attribute-creation order in CPython. -/
abbrev Doc := List (String × FieldVal)

/-- `getattr self k` (`None`-free: `none` means the attribute is missing). -/
def getAttr (d : Doc) (k : String) : Option FieldVal :=
  match d with
  | [] => none
  | (k', v) :: rest => if k' = k then some v else getAttr rest k

/-- `setattr self k v`: overwrite in place if present, else append. -/
def setAttr (d : Doc) (k : String) (v : FieldVal) : Doc :=
  match d with
  | [] => [(k, v)]
  | (k', v') :: rest => if k' = k then (k', v) :: rest else (k', v') :: setAttr rest k v

/-- Python exceptions raised by the codec. -/
inductive Err
  | attrError (name : String)       -- AttributeError: missing attribute
  | typeErr                         -- TypeError (e.g. len() / range() of a non-sequence)
  | keyError (key : String)         -- KeyError: record id missing from a schema table
  | indexError                      -- IndexError (line index or pop from empty list)
  | fmtError                        -- fortranformat failed to parse the line
  | nameError (name : String)       -- NameError: unbound bare name inside an f-string
  | unboundLocal (name : String)    -- UnboundLocalError: local read before assignment
  | notImplemented                  -- NotImplementedError
  | fuelExhausted                   -- loop bound exhausted (unreachable for the bounded loops)
deriving DecidableEq, Repr

/-- `getattr` that raises `AttributeError` when missing. -/
def getAttrE (d : Doc) (k : String) : Except Err FieldVal :=
  match getAttr d k with
  | some v => .ok v
  | none => .error (.attrError k)

/-- Python `self.k == z` for an integer literal `z`: numeric equality for ints
and floats, `False` for strings and lists, `AttributeError` if missing is the
caller's concern (callers use `getAttrE` first).  This helper takes the value. -/
def eqInt (v : FieldVal) (z : Int) : Bool :=
  match v with
  | .sc (.i n) => decide (n = z)
  | .sc (.r q) => decide (q = (z : Rat))
  | _ => false

/-- Python `self.k > z`: numeric comparison for ints/floats, `TypeError` for
strings and lists, `AttributeError` when the attribute is missing. -/
def gtAttrE (d : Doc) (k : String) (z : Int) : Except Err Bool :=
  match getAttr d k with
  | some (.sc (.i n)) => .ok (decide (z < n))
  | some (.sc (.r q)) => .ok (decide ((z : Rat) < q))
  | some _ => .error .typeErr
  | none => .error (.attrError k)

/-- Python `range(self.k)`: needs an int (negative yields the empty range),
`TypeError` otherwise, `AttributeError` when missing. -/
def rangeAttrE (d : Doc) (k : String) : Except Err Nat :=
  match getAttr d k with
  | some (.sc (.i n)) => .ok n.toNat
  | some _ => .error .typeErr
  | none => .error (.attrError k)

/-- Python `len(self.k)`: length of a list or of a string, `TypeError` for
numbers, `AttributeError` when missing. -/
def lenAttrE (d : Doc) (k : String) : Except Err Nat :=
  match getAttr d k with
  | some (.ls xs) => .ok xs.length
  | some (.sc (.s t)) => .ok t.length
  | some _ => .error .typeErr
  | none => .error (.attrError k)

/-- Python `1 if type(self.k) != list else len(self.k)` (no TypeError possible;
`AttributeError` when missing). -/
def listLenOr1 (d : Doc) (k : String) : Except Err Nat :=
  match getAttr d k with
  | some (.ls xs) => .ok xs.length
  | some (.sc _) => .ok 1
  | none => .error (.attrError k)

/-! ## Longwave schema tables (`longwave.py`, `InputLW.get_format` /
`InputLW.get_fields`)

Dynamic entries (Python lambdas over `self`) become functions of the `Doc`.
An unknown record id raises `KeyError`, exactly as a missing dict key does.
Note the table keys spell the 16-band cloud sub-record `"C1.3A"` (capital A)
while the read loop asks for `"C1.3a"`. -/

/-- `InputLW.get_format`: Fortran format string for a record id. -/
def get_format (d : Doc) (rec : String) : Except Err String :=
  match rec with
  | "1.1" => .ok "(1A80)"
  | "1.2" => .ok "(49X, I1, 19X, I1, 12X, I1, I2, 2X, I3, 4X, I1)"
  | "1.4" => .ok "(F10.3,  1X, I1, 2X, I1, 16F5.3)"
  | "2.1" => .ok "(1X,I1, I3, I5)"
  | "2.1.1" => do
      let v ← getAttrE d "IFORM"
      .ok ("(" ++ (if eqInt v 0 then "F10.4" else "ES15.7") ++ ", F10.4, 23X, F8.3, F7.2,  7X, F8.3,   F7.2)")
  | "2.1.2" => do
      let v ← getAttrE d "IFORM"
      .ok ("(" ++ (if eqInt v 0 then "8ES10.3" else "8ES15.7") ++ ")")
  | "2.1.3" => do
      let v ← getAttrE d "IFORM"
      .ok ("(" ++ (if eqInt v 0 then "8ES10.3" else "8ES15.7") ++ ")")
  | "2.2" => .ok "(I5)"
  | "2.2.1" => .ok "(7A10,(/,8A10))"
  | "2.2.2" => .ok "(1X,I1)"
  | "2.2.3" => .ok "(A1)"
  | "2.2.4" => do
      let v ← getAttrE d "IFRMX"
      .ok ("(" ++ (if eqInt v 0 then "7ES10.3" else "7ES15.7") ++ ")")
  | "2.2.5" => do
      let v ← getAttrE d "IFRMX"
      .ok ("(" ++ (if eqInt v 0 then "8ES10.3" else "8ES15.7") ++ ")")
  | "3.1" => .ok "(I5, 5X, I5, 5X, I5, I5, I5, 3X, I2, F10.3, 20X, F10.3)"
  | "3.2" => .ok "(F10.3,  F10.3)"
  | "3.3A" => .ok "(F10.3,  F10.3,  F10.3, F10.3, F10.3)"
  | "3.3B" => .ok "(8F10.3)"
  | "3.4" => .ok "(I5, 3A8)"
  | "3.5" => .ok "(F10.3, F10.3, F10.3, 5X, A1, A1, 3X, 28A1)"
  | "3.6.1" => .ok "(8ES10.3)"
  | "3.7" => .ok "(I5, I5, I5)"
  | "3.7.1" => .ok "(7A10,(/,8A10))"
  | "3.8" => .ok "(I5, I5, A50)"
  | "3.8.1" => .ok "(F10.3, 5X, 35A1)"
  | "3.8.2" => .ok "(8ES10.3)"
  | "C1.1" => .ok "(3X, I2,  4X, I1,  4X, I1)"
  | "C1.2" => .ok "(A1, 1X, I3, ES10.3, ES10.3, ES10.3, ES10.3, ES10.3)"
  | "C1.3" => .ok "(A1, 1X, I3, ES10.3, ES10.3, ES10.3, ES10.3, ES10.3)"
  | "C1.3A" => .ok "(15X, E10.5, E10.5, 16E10.5)"
  | _ => .error (.keyError rec)

/-- `[f'SEMISS({IB})' for IB in range(1,16+1)]` and friends. -/
def numberedNames (stem : String) (lo : Nat) (count : Nat) : List String :=
  (List.range count).map (fun j => stem ++ "(" ++ toString (lo + j) ++ ")")

/-- `InputLW.get_fields`: ordered field-name list for a record id. -/
def get_fields (d : Doc) (rec : String) : Except Err (List String) :=
  match rec with
  | "1.1" => .ok ["CXID"]
  | "1.2" => .ok ["IATM", "IXSECT", "ISCAT", "NUMANGS", "IOUT", "ICLD"]
  | "1.4" => .ok (["TBOUND", "IEMIS", "IREFLECT"] ++ numberedNames "SEMISS" 1 16)
  | "2.1" => .ok ["IFORM", "NLAYRS", "NMOL"]
  | "2.1.1" => .ok ["PAVE", "TAVE", "PZ(L-1)", "TZ(L-1)", "PZ(L)", "TZ(L)"]
  | "2.1.2" => .ok ["WKL(1,L)", "WKL(2,L)", "WKL(3,L)", "WKL(4,L)", "WKL(5,L)", "WKL(6,L)", "WKL(7,L)", "WBROAD(L)"]
  | "2.1.3" => do
      -- lambda self: [f'WKL({M},L)' for M in range(self.NMOL-7)]
      let n ← match getAttr d "NMOL" with
              | some (.sc (.i n)) => Except.ok n
              | some _ => Except.error Err.typeErr
              | none => Except.error (Err.attrError "NMOL")
      .ok ((List.range (n - 7).toNat).map (fun M => "WKL(" ++ toString M ++ ",L)"))
  | "2.2" => .ok ["IXMOLS"]
  | "2.2.1" => do
      let c ← rangeAttrE d "IXMOLS"
      .ok (numberedNames "XSNAME" 1 c)
  | "2.2.2" => .ok ["IFRMX"]
  | "2.2.3" => .ok ["_"]
  | "2.2.4" => .ok (numberedNames "XAMNT" 1 7)
  | "3.1" => .ok ["MODEL", "IBMAX", "NOPRNT", "NMOL", "IPUNCH", "MUNITS", "RE", "CO2MX"]
  | "3.2" => .ok ["HBOUND", "HTOA"]
  | "3.3A" => .ok ["AVTRAT", "TDIFF1", "TDIFF2", "ALTD1", "ALTD2"]
  | "3.3B" => do
      -- lambda self: [f"{'Z' if self.IBMAX>0 else 'P'}BND({I})" for I in range(1, abs(self.IBMAX)+1)]
      let b ← match getAttr d "IBMAX" with
              | some (.sc (.i n)) => Except.ok n
              | some _ => Except.error Err.typeErr
              | none => Except.error (Err.attrError "IBMAX")
      .ok (numberedNames ((if 0 < b then "Z" else "P") ++ "BND") 1 b.natAbs)
  | "3.4" => .ok ["IMMAX", "HMOD"]
  | "3.5" => .ok (["ZM", "PM", "TM", "JCHARP", "JCHART"] ++ numberedNames "JCHAR" 1 28)
  | "3.6.1" => do
      let c ← rangeAttrE d "NMOL"
      .ok (numberedNames "VMOL" 1 c)
  | "3.7" => .ok ["IXMOLS", "IPRFL", "IXSBIN"]
  | "3.7.1" => do
      let c ← rangeAttrE d "IXMOLS"
      .ok (numberedNames "XSNAME" 1 c)
  | "3.8" => .ok ["LAYX", "IZORP", "XTITLE"]
  | "3.8.1" => .ok (["ZORP"] ++ numberedNames "JCHARX" 1 28)
  | "3.8.2" => do
      let c ← rangeAttrE d "IXMOLS"
      .ok (numberedNames "DENX" 1 c)
  | "C1.1" => .ok ["INFLAG", "ICEFLAG", "LIQFLAG"]
  | "C1.2" => .ok ["TESTCHAR", "LAY", "CLDFRAC", "CWP", "FRACICE", "EFFSIZEICE", "EFFSIZELIQ"]
  | "C1.3" => do
      let c ← rangeAttrE d "NSTR"
      .ok (["TESTCHAR", "LAY", "CLDFRAC", "TAUCLD", "SINGLE-SCATTERING ALBEDO"] ++
           (List.range c).map (fun N => "PMOM(" ++ toString N ++ ")"))
  | "C1.3A" => do
      let c ← rangeAttrE d "NSTR"
      .ok (["TAUCLD", "SINGLE-SCATTERING ALBEDO"] ++
           (List.range c).map (fun N => "PMOM(" ++ toString N ++ ")"))
  | _ => .error (.keyError rec)

/-! ## File bounds (`Input.get_input_rrtm_file_bounds`) -/

/-- `Input.get_input_rrtm_file_bounds`: scan for the unique line starting with
`'$'` and the unique line starting with `'%'`.  For `in_cld_rrtm` the start
list is replaced by `[0]`.  On any other count, or start not before end, the
source executes `raise IOError(f"{fpath}: ...")` — but `fpath` is not a name
in that scope, so Python raises `NameError` while formatting the message and
the intended `IOError` is never constructed.  An empty line would make
`s[0]` raise `IndexError` during the scan. -/
def get_input_rrtm_file_bounds (lines : List String) (file : String) : Except Err (Nat × Nat) :=
  if lines.any (fun s => s.isEmpty) then .error .indexError else
  let starts0 := (lines.enum.filter (fun p => p.2.front = '$')).map Prod.fst
  let ends := (lines.enum.filter (fun p => p.2.front = '%')).map Prod.fst
  let starts := if file = "in_cld_rrtm" then [0] else starts0
  match starts, ends with
  | [s0], [e0] =>
      if s0 < e0 then .ok (s0, e0)
      else .error (.nameError "fpath")
  | _, _ => .error (.nameError "fpath")

/-! ## Record order resolver (`InputLW.get_logical_record_order` /
`InputLW.get_explicit_record_order`; the `InputSW` bodies in `shortwave.py`
are textually identical for these two methods).

Loops of the source that append a constant group per iteration are translated
to `List.replicate`/`join`; a fetch or `raise` that the source performs inside
the loop body is performed when the iteration count is positive, which is
observably identical in the exception monad. -/

/-- `get_logical_record_order` (options `input_rrtm`, `in_cld_rrtm`; any other
file kind leaves the local `records` unassigned and the final
`return records` raises `UnboundLocalError`). -/
def get_logical_record_order (d : Doc) (file : String) : Except Err (List String) :=
  if file = "input_rrtm" then do
    let recs := ["1.1", "1.2", "1.4"]
    let iatm ← getAttrE d "IATM"
    if eqInt iatm 0 then do
      let recs := recs ++ ["2.1", "2.1.1", "2.1.2"]
      let b ← gtAttrE d "NMOL" 7
      let recs := recs ++ (if b then ["2.1.3"] else [])
      let ix ← getAttrE d "IXSECT"
      if eqInt ix 1 then do
        let recs := recs ++ ["2.2", "2.2.1", "2.2.2", "2.2.3", "2.2.4"]
        let b2 ← gtAttrE d "IXMOLS" 7
        Except.ok (recs ++ (if b2 then ["2.2.5"] else []))
      else Except.ok recs
    else if eqInt iatm 1 then do
      let recs := recs ++ ["3.1", "3.2"]
      let ib ← getAttrE d "IBMAX"
      let recs := recs ++ (if eqInt ib 0 then ["3.3A"] else ["3.3B"])
      let md ← getAttrE d "MODEL"
      let recs := recs ++ (if eqInt md 0 then ["3.4", "3.5", "3.6.1"] else [])
      let ix ← getAttrE d "IXSECT"
      if eqInt ix 1 then do
        let recs := recs ++ ["3.7", "3.7.1"]
        let ip ← getAttrE d "IPRFL"
        Except.ok (recs ++ (if eqInt ip 0 then ["3.8", "3.8.1", "3.8.2"] else []))
      else Except.ok recs
    else Except.ok recs
  else if file = "in_cld_rrtm" then do
    let recs := ["C1.1"]
    let fl ← getAttrE d "INFLAG"
    if eqInt fl 1 || eqInt fl 2 then Except.ok (recs ++ ["C1.2"])
    else if eqInt fl 0 || eqInt fl 10 then do
      -- for i in range(len(self.LAY)): records.append('C1.3');
      --   if self.INFLAG == 10: raise NotImplementedError(...)
      let n ← lenAttrE d "LAY"
      if eqInt fl 10 && decide (0 < n) then Except.error Err.notImplemented
      else Except.ok (recs ++ List.replicate n "C1.3")
    else Except.ok recs
  else Except.error (Err.unboundLocal "records")

/-- `get_explicit_record_order`: like the logical order with each repeated
record expanded to its occurrence count (and the same unhandled-file-kind
`UnboundLocalError`). -/
def get_explicit_record_order (d : Doc) (file : String) : Except Err (List String) :=
  if file = "input_rrtm" then do
    let recs := ["1.1", "1.2", "1.4"]
    let iatm ← getAttrE d "IATM"
    if eqInt iatm 0 then do
      let recs := recs ++ ["2.1"]
      let n ← rangeAttrE d "NLAYRS"
      -- loop body appends 2.1.1, 2.1.2 and, when NMOL > 7, 2.1.3
      let recs ← if 0 < n then do
            let b ← gtAttrE d "NMOL" 7
            Except.ok (recs ++ (List.replicate n (["2.1.1", "2.1.2"] ++ (if b then ["2.1.3"] else []))).flatten)
          else Except.ok recs
      let ix ← getAttrE d "IXSECT"
      if eqInt ix 1 then do
        let recs := recs ++ ["2.2", "2.2.1", "2.2.2"]
        let n2 ← rangeAttrE d "NLAYRS"
        if 0 < n2 then do
          let b2 ← gtAttrE d "IXMOLS" 7
          Except.ok (recs ++ (List.replicate n2 (["2.2.3", "2.2.4"] ++ (if b2 then ["2.2.5"] else []))).flatten)
        else Except.ok recs
      else Except.ok recs
    else if eqInt iatm 1 then do
      let recs := recs ++ ["3.1", "3.2"]
      let ib ← getAttrE d "IBMAX"
      let recs := recs ++ (if eqInt ib 0 then ["3.3A"] else ["3.3B"])
      let md ← getAttrE d "MODEL"
      let recs ← if eqInt md 0 then do
            let im ← rangeAttrE d "IMMAX"
            Except.ok (recs ++ ["3.4"] ++ (List.replicate im ["3.5", "3.6.1"]).flatten)
          else Except.ok recs
      let ix ← getAttrE d "IXSECT"
      if eqInt ix 1 then do
        let recs := recs ++ ["3.7", "3.7.1"]
        let ip ← getAttrE d "IPRFL"
        if eqInt ip 0 then do
          let lx ← rangeAttrE d "LAYX"
          Except.ok (recs ++ ["3.8"] ++ (List.replicate lx ["3.8.1", "3.8.2"]).flatten)
        else Except.ok recs
      else Except.ok recs
    else Except.ok recs
  else if file = "in_cld_rrtm" then do
    let recs := ["C1.1"]
    let fl ← getAttrE d "INFLAG"
    if eqInt fl 1 || eqInt fl 2 then do
      let n ← listLenOr1 d "LAY"
      Except.ok (recs ++ List.replicate n "C1.2")
    else if eqInt fl 0 || eqInt fl 10 then do
      let n ← listLenOr1 d "LAY"
      if eqInt fl 10 && decide (0 < n) then Except.error Err.notImplemented
      else Except.ok (recs ++ List.replicate n "C1.3")
    else Except.ok recs
  else Except.error (Err.unboundLocal "records")

/-! ## Sequential reader engine (`Input.read_record`, `Input.read_greedy_record`,
`Input.read_input_rrtm`, `Input.read_in_cld_rrtm`)

`FortranRecordReader(fmt).read(line)` is abstracted as a `Reader` oracle;
`none` models a fortranformat parse failure. -/

/-- The abstracted `fortranformat` line decoder: format string, then raw
line, to the decoded scalar list. -/
abbrev Reader := String → String → Option (List Scalar)

/-- Read-cursor state: the document plus `self.read_i`. -/
structure RState where
  doc : Doc
  read_i : Nat
deriving DecidableEq, Repr

/-- The three repetition modes of `Input.read_record`. -/
inductive Mode
  | new       -- 'new'
  | app       -- 'append'
  | appDepth  -- 'append depth'
deriving DecidableEq, Repr

/-- Python `l if type(l) == list else [l]` used by the append modes. -/
def coerceList (v : FieldVal) : List Elem :=
  match v with
  | .sc a => [.s a]
  | .ls xs => xs

/-- One `setattr` of `Input.read_record`'s field-merge loop, per mode:
`new` overwrites, `append` coerces to a list and appends, `append depth`
converts the last element to an inner list and appends there (on a scalar
attribute `l[-1]` raises `TypeError`, on an empty list `IndexError`). -/
def assignField (d : Doc) (mode : Mode) (k : String) (val : Scalar) : Except Err Doc :=
  match mode with
  | .new => .ok (setAttr d k (.sc val))
  | .app => do
      let v ← getAttrE d k
      .ok (setAttr d k (.ls (coerceList v ++ [.s val])))
  | .appDepth => do
      let v ← getAttrE d k
      match v with
      | .sc _ => .error .typeErr
      | .ls xs =>
        match xs.getLast? with
        | none => .error .indexError
        | some last =>
            let inner : List Scalar := match last with | .s a => [a] | .l vs => vs
            .ok (setAttr d k (.ls (xs.dropLast ++ [.l (inner ++ [val])])))

/-- `Input.read_record`: fetch the current line, resolve format and field
names from the schema tables, decode, merge each (name, value) pair into the
document under the given mode, and advance the cursor by one. -/
def read_record (reader : Reader) (lines : List String) (st : RState) (rec : String)
    (mode : Mode) : Except Err RState := do
  let line ← match lines[st.read_i]? with
             | some s => Except.ok s
             | none => Except.error Err.indexError
  let fmt ← get_format st.doc rec
  let names ← get_fields st.doc rec
  let fields ← match reader fmt line with
               | some vs => Except.ok vs
               | none => Except.error Err.fmtError
  let doc ← (names.zip fields).foldlM (fun d p => assignField d mode p.1 p.2) st.doc
  Except.ok ⟨doc, st.read_i + 1⟩

/-- `record[key] = val` on the Python dict accumulated by
`read_greedy_record`: overwrite in place if the key exists, else append
(dicts keep insertion order). -/
def dictInsert (r : List (String × Scalar)) (k : String) (v : Scalar) : List (String × Scalar) :=
  match r with
  | [] => [(k, v)]
  | (k', v') :: rest => if k' = k then (k', v) :: rest else (k', v') :: dictInsert rest k v

/-- `var in list(record.keys())`. -/
def keysContain (r : List (String × Scalar)) (k : String) : Bool :=
  r.any (fun p => p.1 = k)

/-- The `while len(record.keys()) < inames` loop of `Input.read_greedy_record`:
filter out the names already read, decode one more physical line with the same
format, merge, repeat.  Terminates because every iteration advances the
cursor and an out-of-range cursor raises `IndexError`. -/
def greedy_go (reader : Reader) (fmt : String) (lines : List String) (inames : Nat)
    (names : List String) (record : List (String × Scalar)) (read_i : Nat) :
    Except Err (List (String × Scalar) × Nat) :=
  if record.length < inames then
    let names' := names.filter (fun nm => !(keysContain record nm))
    if h : read_i < lines.length then
      match reader fmt lines[read_i] with
      | some fields =>
          greedy_go reader fmt lines inames names'
            ((names'.zip fields).foldl (fun r p => dictInsert r p.1 p.2) record) (read_i + 1)
      | none => .error .fmtError
    else .error .indexError
  else .ok (record, read_i)
termination_by lines.length - read_i
decreasing_by omega

/-- `Input.read_greedy_record`: decode the record's full field-name list
across as many physical lines as needed (same per-line format each time),
then write the accumulated dict back to the document in insertion order. -/
def read_greedy_record (reader : Reader) (lines : List String) (st : RState)
    (rec : String) : Except Err RState := do
  let line ← match lines[st.read_i]? with
             | some s => Except.ok s
             | none => Except.error Err.indexError
  let fmt ← get_format st.doc rec
  let names ← get_fields st.doc rec
  let inames := names.length
  let fields ← match reader fmt line with
               | some vs => Except.ok vs
               | none => Except.error Err.fmtError
  let record := (names.zip fields).foldl (fun r p => dictInsert r p.1 p.2) []
  let (record, ri) ← greedy_go reader fmt lines inames names record (st.read_i + 1)
  Except.ok ⟨record.foldl (fun d p => setAttr d p.1 (.sc p.2)) st.doc, ri⟩

/-- `'new' if i==0 else 'append'`. -/
def modeFor (i : Nat) : Mode := if i = 0 then .new else .app

/-- `Input.read_input_rrtm`: the sequential read of the primary file, on top
of an initial document `doc0` (a fresh `Input` object has no fields, i.e.
`doc0 = []`).  The final cursor-vs-end comparison only emits a non-fatal
warning in the source and is not modelled. -/
def read_input_rrtm (reader : Reader) (doc0 : Doc) (lines : List String) :
    Except Err Doc := do
  let (s, _e) ← get_input_rrtm_file_bounds lines "input_rrtm"
  let st : RState := ⟨doc0, s⟩
  let st ← read_record reader lines st "1.1" .new
  let st ← read_record reader lines st "1.2" .new
  let st ← read_record reader lines st "1.4" .new
  let iatm ← getAttrE st.doc "IATM"
  if eqInt iatm 0 then do
    let st ← read_record reader lines st "2.1" .new
    let n ← rangeAttrE st.doc "NLAYRS"
    let st ← (List.range n).foldlM (fun st i => do
        let st ← read_record reader lines st "2.1.1" (modeFor i)
        let st ← read_record reader lines st "2.1.2" (modeFor i)
        let b ← gtAttrE st.doc "NMOL" 7
        if b then read_record reader lines st "2.1.3" (modeFor i)
        else Except.ok st) st
    let ix ← getAttrE st.doc "IXSECT"
    if eqInt ix 1 then do
      let st ← read_record reader lines st "2.2" .new
      let st ← read_record reader lines st "2.2.1" .new
      let st ← read_record reader lines st "2.2.2" .new
      let n2 ← rangeAttrE st.doc "NLAYRS"
      let st ← (List.range n2).foldlM (fun st i => do
          let st ← read_record reader lines st "2.2.3" (modeFor i)
          let st ← read_record reader lines st "2.2.4" (modeFor i)
          let b ← gtAttrE st.doc "IXMOLS" 7
          if b then read_record reader lines st "2.2.5" (modeFor i)
          else Except.ok st) st
      Except.ok st.doc
    else Except.ok st.doc
  else if eqInt iatm 1 then do
    let st ← read_record reader lines st "3.1" .new
    let st ← read_record reader lines st "3.2" .new
    let ib ← getAttrE st.doc "IBMAX"
    let st ← if eqInt ib 0 then read_record reader lines st "3.3A" .new
             else read_greedy_record reader lines st "3.3B"
    let md ← getAttrE st.doc "MODEL"
    let st ← if eqInt md 0 then do
          let st ← read_record reader lines st "3.4" .new
          let im ← rangeAttrE st.doc "IMMAX"
          (List.range im).foldlM (fun st i => do
              let st ← read_record reader lines st "3.5" (modeFor i)
              read_record reader lines st "3.6.1" (modeFor i)) st
        else Except.ok st
    let ix ← getAttrE st.doc "IXSECT"
    if eqInt ix 1 then do
      let st ← read_record reader lines st "3.7" .new
      let st ← read_record reader lines st "3.7.1" .new
      let ip ← getAttrE st.doc "IPRFL"
      if eqInt ip 0 then do
        let st ← read_record reader lines st "3.8" .new
        let lx ← rangeAttrE st.doc "LAYX"
        let st ← (List.range lx).foldlM (fun st i => do
            let st ← read_record reader lines st "3.8.1" (modeFor i)
            read_record reader lines st "3.8.2" (modeFor i)) st
        Except.ok st.doc
      else Except.ok st.doc
    else Except.ok st.doc
  else Except.ok st.doc

/-- The NSTR precomputation at the top of `Input.read_in_cld_rrtm`
(lines 471–482): `self.NSTR = 0`; when ISCAT is 1 or 2, NUMANGS 0/1/2 gives
NSTR 4/8/16, and any other NUMANGS executes
`raise ValueError(f"'{NUMANGS}' ...")` — but `NUMANGS` is a bare name,
unbound in that method, so Python raises `NameError` while formatting the
message and the intended `ValueError` is never constructed. -/
def compute_NSTR (d : Doc) : Except Err Doc := do
  let d := setAttr d "NSTR" (.sc (.i 0))
  let isc ← getAttrE d "ISCAT"
  if eqInt isc 1 || eqInt isc 2 then do
    let na ← getAttrE d "NUMANGS"
    if eqInt na 0 then .ok (setAttr d "NSTR" (.sc (.i 4)))
    else if eqInt na 1 then .ok (setAttr d "NSTR" (.sc (.i 8)))
    else if eqInt na 2 then .ok (setAttr d "NSTR" (.sc (.i 16)))
    else .error (.nameError "NUMANGS")
  else .ok d

/-- The `while self.read_i < end_i` loop of `read_in_cld_rrtm` for
INFLAG ∈ {1, 2}: keep appending C1.2 records.  `fuel` bounds the recursion;
each iteration advances the cursor by one, so `end_i - read_i` fuel is exact. -/
def cld_loop_12 (reader : Reader) (lines : List String) (e : Nat) :
    Nat → RState → Except Err RState
  | 0, st => if st.read_i < e then .error .fuelExhausted else .ok st
  | fuel + 1, st =>
      if st.read_i < e then do
        let st ← read_record reader lines st "C1.2" .app
        cld_loop_12 reader lines e fuel st
      else .ok st

/-- The `while self.read_i < end_i` loop of `read_in_cld_rrtm` for
INFLAG ∈ {0, 10}: append a C1.3 record, and under INFLAG = 10 read the 15
per-band `'C1.3a'` sub-records in `append depth` mode — a record id the
schema tables do not contain (they spell it `'C1.3A'`). -/
def cld_loop_3 (reader : Reader) (lines : List String) (e : Nat) :
    Nat → RState → Except Err RState
  | 0, st => if st.read_i < e then .error .fuelExhausted else .ok st
  | fuel + 1, st =>
      if st.read_i < e then do
        let st ← read_record reader lines st "C1.3" .app
        let fl ← getAttrE st.doc "INFLAG"
        let st ← if eqInt fl 10 then
              (List.range 15).foldlM (fun st _ => read_record reader lines st "C1.3a" .appDepth) st
            else Except.ok st
        cld_loop_3 reader lines e fuel st
      else .ok st

/-- `Input.read_in_cld_rrtm`: bounds (implicit start at line 0), the NSTR
precomputation, the C1.1 header record, then the INFLAG-selected cloud
records.  The final cursor check is a non-fatal warning and not modelled. -/
def read_in_cld_rrtm (reader : Reader) (doc0 : Doc) (lines : List String) :
    Except Err Doc := do
  let (s, e) ← get_input_rrtm_file_bounds lines "in_cld_rrtm"
  let doc ← compute_NSTR doc0
  let st : RState := ⟨doc, s⟩
  let st ← read_record reader lines st "C1.1" .new
  let fl ← getAttrE st.doc "INFLAG"
  if eqInt fl 1 || eqInt fl 2 then do
    let st ← read_record reader lines st "C1.2" .new
    let st ← cld_loop_12 reader lines e (e - st.read_i) st
    Except.ok st.doc
  else if eqInt fl 0 || eqInt fl 10 then do
    let st ← read_record reader lines st "C1.3" .new
    let st ← cld_loop_3 reader lines e (e - st.read_i) st
    Except.ok st.doc
  else Except.ok st.doc

/-! ## Writer engine (`Input.write_record`, `Input.write_input_rrtm`,
`Input.write_in_cld_rrtm`, `Input.write_in_aer_rrtm`, `Input.write`) -/

/-- One line of an output file: either a literal string the writer emits
verbatim, or an encoded record line, represented as the format string and
the value list handed to `FortranRecordWriter(fmt).write(vals)`. -/
inductive Line
  | raw (s : String)
  | recL (fmt : String) (vals : List Elem)
deriving DecidableEq, Repr

/-- One step of `Input.write_record`'s value-gathering loop: take the
attribute, popping the first element (`attr.pop(0)`) if it is a list — which
mutates the instance the method runs on — and append the value to the list
handed to the Fortran writer. -/
def popField (acc : List Elem × Doc) (key : String) : Except Err (List Elem × Doc) := do
  let v ← getAttrE acc.2 key
  match v with
  | .ls [] => Except.error Err.indexError
  | .ls (x :: xs) => Except.ok (acc.1 ++ [x], setAttr acc.2 key (.ls xs))
  | .sc a => Except.ok (acc.1 ++ [Elem.s a], acc.2)

/-- `Input.write_record`: resolve format and field names, gather (and pop)
the per-field values via `popField`, and emit the encoded line together with
the mutated document. -/
def write_record (d : Doc) (rec : String) : Except Err (Line × Doc) := do
  let fmt ← get_format d rec
  let names ← get_fields d rec
  let (vals, d') ← names.foldlM popField ([], d)
  Except.ok (.recL fmt vals, d')

/-- The `for rec in records: rundupe.write_record(rec)` loop shared by the
three file writers, threading the disposable copy through the destructive
`write_record`. -/
def write_records_loop (recs : List String) (rundupe : Doc) :
    Except Err (List Line × Doc) :=
  recs.foldlM (fun acc rec => do
      let (l, d') ← write_record acc.2 rec
      Except.ok (acc.1 ++ [l], d')) ([], rundupe)

/-- `Input.write_input_rrtm`: take the explicit order, run the destructive
record writer over `rundupe = self.copy()` (a deep copy, so `self` is left
untouched — documents here are immutable values, hence the copy is `d`
itself), and emit header lines, record lines and the `'%'` end sentinel.
Returns the emitted lines and the post-state of `self`, which is `d`. -/
def write_input_rrtm (d : Doc) : Except Err (List Line × Doc) := do
  let recs ← get_explicit_record_order d "input_rrtm"
  let (ls, _) ← write_records_loop recs d
  Except.ok ([Line.raw "", Line.raw "", Line.raw "file auto-generated by parserrtm"] ++ ls
             ++ [Line.raw "%"], d)

/-- `Input.write_in_cld_rrtm`: same engine over the `in_cld_rrtm` explicit
order, with the end sentinel and comment after the records. -/
def write_in_cld_rrtm (d : Doc) : Except Err (List Line × Doc) := do
  let recs ← get_explicit_record_order d "in_cld_rrtm"
  let (ls, _) ← write_records_loop recs d
  Except.ok (ls ++ [Line.raw "%", Line.raw "file auto-generated by parserrtm"], d)

/-- `Input.write_in_aer_rrtm`: same engine over the `in_aer_rrtm` explicit
order (a file kind the order resolver does not handle). -/
def write_in_aer_rrtm (d : Doc) : Except Err (List Line × Doc) := do
  let recs ← get_explicit_record_order d "in_aer_rrtm"
  let (ls, _) ← write_records_loop recs d
  Except.ok (ls ++ [Line.raw "%", Line.raw "file auto-generated by parserrtm"], d)

/-- The `methods` dict of `Input.write` (lines 349–351), exactly as in the
source: `'in_aer_rrtm'` is mapped to `write_in_cld_rrtm` and `'in_cld_rrtm'`
to `write_in_aer_rrtm` (the two are swapped). -/
def writeMethod (key : String) (d : Doc) : Except Err (List Line × Doc) :=
  if key = "input_rrtm" then write_input_rrtm d
  else if key = "in_aer_rrtm" then write_in_cld_rrtm d
  else write_in_aer_rrtm d

/-- The `fpaths` dict of `Input.write`: the fixed output file names. -/
def fileNameFor (key : String) : String :=
  if key = "input_rrtm" then "INPUT_RRTM"
  else if key = "in_cld_rrtm" then "IN_CLD_RRTM"
  else "IN_AER_RRTM"

/-- `Input.write`: only in the `'auto'` branch is the `files` list populated
(primary always; `in_cld_rrtm` when `ICLD > 0`; `in_aer_rrtm` when
`IAER > 0`); then each requested file is produced through `writeMethod`.
The result is the list of (file name, emitted lines) pairs actually written,
plus the exception (if any) that aborted the loop — a file whose writer
raises is not created. -/
def write (d : Doc) (file : String) : List (String × List Line) × Option Err :=
  let filesE : Except Err (List String) :=
    if file = "auto" then do
      let b1 ← gtAttrE d "ICLD" 0
      let b2 ← gtAttrE d "IAER" 0
      Except.ok (["input_rrtm"] ++ (if b1 then ["in_cld_rrtm"] else [])
                 ++ (if b2 then ["in_aer_rrtm"] else []))
    else Except.ok []
  match filesE with
  | .error e => ([], some e)
  | .ok files =>
      files.foldl (fun acc key =>
        match acc.2 with
        | some _ => acc
        | none =>
          match writeMethod key d with
          | .ok (ls, _) => (acc.1 ++ [(fileNameFor key, ls)], none)
          | .error e => (acc.1, some e)) ([], none)

/-! ## Basic lemmas about the document operations -/

theorem getAttr_setAttr_self (d : Doc) (k : String) (v : FieldVal) :
    getAttr (setAttr d k v) k = some v := by
  induction d with
  | nil => simp [getAttr, setAttr]
  | cons p rest ih =>
      obtain ⟨k', v'⟩ := p
      by_cases h : k' = k
      · simp [getAttr, setAttr, h]
      · simp [getAttr, setAttr, h, ih]

theorem getAttr_setAttr_ne (d : Doc) (k k' : String) (v : FieldVal) (h : k' ≠ k) :
    getAttr (setAttr d k v) k' = getAttr d k' := by
  induction d with
  | nil => simp [getAttr, setAttr, Ne.symm h]
  | cons p rest ih =>
      obtain ⟨k₀, v₀⟩ := p
      by_cases h0 : k₀ = k
      · have hne : ¬k₀ = k' := fun hh => h (hh.symm.trans h0)
        simp [setAttr, h0, getAttr, hne, Ne.symm h]
      · simp only [setAttr, if_neg h0, getAttr]
        by_cases h1 : k₀ = k'
        · simp [h1]
        · simp [h1, ih]

/-! ## Concrete documents, readers and files used by the claim checks -/

/-- Control fields of a layer-mode document with `NLAYRS = 0` (used for C2). -/
def docC2 : Doc :=
  [("IATM", .sc (.i 0)), ("NLAYRS", .sc (.i 0)), ("NMOL", .sc (.i 7)), ("IXSECT", .sc (.i 0))]

/-- A document populated as if `INPUT_RRTM` had been read with `ISCAT = 0`,
about to read a cloud file whose C1.1 record carries `INFLAG = 10` (C5). -/
def docC5 : Doc := [("ISCAT", .sc (.i 0)), ("NUMANGS", .sc (.i 0))]

/-- Decoded-line oracle for the cloud-file scenarios: the header line `"H"`
decodes to `INFLAG = 10, ICEFLAG = 0, LIQFLAG = 0`, and the layer lines
`"L1"`/`"L2"` decode to the five C1.3 fields (NSTR = 0, so no PMOM names). -/
def readerC5 : Reader := fun _fmt line =>
  if line = "H" then some [.i 10, .i 0, .i 0]
  else if line = "L1" then some [.s " ", .i 1, .i 0, .i 0, .i 0]
  else if line = "L2" then some [.s " ", .i 2, .i 0, .i 0, .i 0]
  else none

/-- A cloud file with a single C1.3 line. -/
def linesC5 : List String := ["H", "L1", "%"]

/-- A cloud file with two C1.3 lines. -/
def linesC5b : List String := ["H", "L1", "L2", "%"]

/-- The document produced by reading `linesC5` (header plus one C1.3 layer). -/
def docC5final : Doc :=
  [("ISCAT", .sc (.i 0)), ("NUMANGS", .sc (.i 0)), ("NSTR", .sc (.i 0)),
   ("INFLAG", .sc (.i 10)), ("ICEFLAG", .sc (.i 0)), ("LIQFLAG", .sc (.i 0)),
   ("TESTCHAR", .sc (.s " ")), ("LAY", .sc (.i 1)), ("CLDFRAC", .sc (.i 0)),
   ("TAUCLD", .sc (.i 0)), ("SINGLE-SCATTERING ALBEDO", .sc (.i 0))]

/-- A complete standard-atmosphere-free document (`IATM = 5`, so only records
1.1, 1.2, 1.4 exist) with `ICLD = 1` and `IAER = 0` (C7 crash scenario). -/
def docC7a : Doc :=
  [("CXID", .sc (.s "t")), ("IATM", .sc (.i 5)), ("IXSECT", .sc (.i 0)),
   ("ISCAT", .sc (.i 0)), ("NUMANGS", .sc (.i 0)), ("IOUT", .sc (.i 0)),
   ("ICLD", .sc (.i 1)), ("IAER", .sc (.i 0)),
   ("TBOUND", .sc (.i 0)), ("IEMIS", .sc (.i 0)), ("IREFLECT", .sc (.i 0))]
  ++ (List.range 16).map (fun j => ("SEMISS(" ++ toString (j + 1) ++ ")", FieldVal.sc (.i 0)))

/-- Like `docC7a` but with `ICLD = 0`, `IAER = 1` and the cloud fields needed
by records C1.1/C1.2 (C7 swap scenario). -/
def docC7b : Doc :=
  [("CXID", .sc (.s "t")), ("IATM", .sc (.i 5)), ("IXSECT", .sc (.i 0)),
   ("ISCAT", .sc (.i 0)), ("NUMANGS", .sc (.i 0)), ("IOUT", .sc (.i 0)),
   ("ICLD", .sc (.i 0)), ("IAER", .sc (.i 1)),
   ("TBOUND", .sc (.i 0)), ("IEMIS", .sc (.i 0)), ("IREFLECT", .sc (.i 0))]
  ++ (List.range 16).map (fun j => ("SEMISS(" ++ toString (j + 1) ++ ")", FieldVal.sc (.i 0)))
  ++ [("INFLAG", .sc (.i 1)), ("ICEFLAG", .sc (.i 0)), ("LIQFLAG", .sc (.i 0)),
      ("TESTCHAR", .sc (.s " ")), ("LAY", .sc (.i 3)), ("CLDFRAC", .sc (.i 0)),
      ("CWP", .sc (.i 0)), ("FRACICE", .sc (.i 0)), ("EFFSIZEICE", .sc (.i 0)),
      ("EFFSIZELIQ", .sc (.i 0))]

/-- A writable document whose `SEMISS(1)` is a two-element list (C8). -/
def docC8 : Doc :=
  [("CXID", .sc (.s "c")), ("IATM", .sc (.i 5)), ("IXSECT", .sc (.i 0)),
   ("ISCAT", .sc (.i 0)), ("NUMANGS", .sc (.i 0)), ("IOUT", .sc (.i 0)),
   ("ICLD", .sc (.i 0)),
   ("TBOUND", .sc (.i 0)), ("IEMIS", .sc (.i 0)), ("IREFLECT", .sc (.i 0)),
   ("SEMISS(1)", .ls [.s (.i 7), .s (.i 8)])]
  ++ (List.range 15).map (fun j => ("SEMISS(" ++ toString (j + 2) ++ ")", FieldVal.sc (.i 0)))

/-- The lines `write_input_rrtm` emits for `docC8`: the `SEMISS(1)` slot of
the 1.4 record carries the first element of the list, `7`. -/
def linesC8 : List Line :=
  [Line.raw "", Line.raw "", Line.raw "file auto-generated by parserrtm",
   Line.recL "(1A80)" [.s (.s "c")],
   Line.recL "(49X, I1, 19X, I1, 12X, I1, I2, 2X, I3, 4X, I1)"
     [.s (.i 5), .s (.i 0), .s (.i 0), .s (.i 0), .s (.i 0), .s (.i 0)],
   Line.recL "(F10.3,  1X, I1, 2X, I1, 16F5.3)"
     ([.s (.i 0), .s (.i 0), .s (.i 0), .s (.i 7)] ++ List.replicate 15 (Elem.s (.i 0))),
   Line.raw "%"]

/-- A tiny document for the pop property of `write_record` on record 3.2. -/
def docC8w : Doc := [("HBOUND", .ls [.s (.i 1), .s (.i 2)]), ("HTOA", .sc (.i 0))]

/-- `docC8w` after one `write_record` pass over record 3.2. -/
def docC8w' : Doc := [("HBOUND", .ls [.s (.i 2)]), ("HTOA", .sc (.i 0))]

/-- The line `write_record` emits for record 3.2 of `docC8w`. -/
def lineC8w : Line := .recL "(F10.3,  F10.3)" [.s (.i 1), .s (.i 0)]

/-- A document with `ISCAT = 1` and the out-of-range `NUMANGS = 3` (C9). -/
def docC9 : Doc := [("ISCAT", .sc (.i 1)), ("NUMANGS", .sc (.i 3))]

/-! ## C10 — `write` with an explicit (non-`'auto'`) file argument -/

/-- C10: for every Document and every `file` argument other than `'auto'`
(e.g. `'input_rrtm'`, `'in_cld_rrtm'`, `'in_aer_rrtm'`), `Input.write`
returns having written no file and raising no error, because the `files`
list is populated only in the `'auto'` branch. -/
theorem c10_write_nonauto_writes_nothing (d : Doc) (file : String) (h : file ≠ "auto") :
    write d file = ([], none) := by
  unfold write
  simp [h]

/-- Witness for C10 at `file = "input_rrtm"` on the empty document. -/
theorem c10_write_nonauto_witness :
    ("input_rrtm" ≠ "auto") ∧ write [] "input_rrtm" = ([], none) :=
  ⟨by decide, c10_write_nonauto_writes_nothing [] "input_rrtm" (by decide)⟩

/-! ## C4 — file-bounds detection -/

/-- C4 (code bug): with exactly one `'$'` line strictly before exactly one
`'%'` line the bounds are returned (and for `in_cld_rrtm` the start is
line 0 regardless of `'$'` occurrences), but on two start lines, or zero end
lines, the source's `raise IOError(f"{fpath}: ...")` interpolates the
unbound name `fpath`, so the call fails with `NameError` rather than the
intended bounds `IOError`. -/
theorem c4_bounds_eval :
    get_input_rrtm_file_bounds ["$ TITLE", "content", "% end"] "input_rrtm" = .ok (0, 2) ∧
    get_input_rrtm_file_bounds ["$ one", "$ two", "% end"] "input_rrtm"
      = .error (.nameError "fpath") ∧
    get_input_rrtm_file_bounds ["$ one", "content"] "input_rrtm"
      = .error (.nameError "fpath") ∧
    get_input_rrtm_file_bounds ["$ one", "$ two", "% end"] "in_cld_rrtm" = .ok (0, 2) :=
  ⟨rfl, rfl, rfl, rfl⟩

/-! ## C9 — the NSTR precomputation -/

/-- C9 (code bug): NSTR is 0 when ISCAT is neither 1 nor 2, and 4/8/16 for
NUMANGS 0/1/2 when ISCAT is 1 or 2; but for ISCAT ∈ {1,2} and NUMANGS out of
range the `raise ValueError(f"'{NUMANGS}' ...")` interpolates the unbound
bare name `NUMANGS`, so the call fails with `NameError`, not the intended
`ValueError`.  The failure does occur before any cloud record is read:
`read_in_cld_rrtm` fails the same way for every line decoder. -/
theorem c9_compute_NSTR_eval :
    compute_NSTR [("ISCAT", .sc (.i 0))]
      = .ok [("ISCAT", .sc (.i 0)), ("NSTR", .sc (.i 0))] ∧
    compute_NSTR [("ISCAT", .sc (.i 1)), ("NUMANGS", .sc (.i 0))]
      = .ok [("ISCAT", .sc (.i 1)), ("NUMANGS", .sc (.i 0)), ("NSTR", .sc (.i 4))] ∧
    compute_NSTR [("ISCAT", .sc (.i 1)), ("NUMANGS", .sc (.i 1))]
      = .ok [("ISCAT", .sc (.i 1)), ("NUMANGS", .sc (.i 1)), ("NSTR", .sc (.i 8))] ∧
    compute_NSTR [("ISCAT", .sc (.i 2)), ("NUMANGS", .sc (.i 2))]
      = .ok [("ISCAT", .sc (.i 2)), ("NUMANGS", .sc (.i 2)), ("NSTR", .sc (.i 16))] ∧
    compute_NSTR docC9 = .error (.nameError "NUMANGS") ∧
    ∀ reader : Reader, read_in_cld_rrtm reader docC9 ["x", "%"]
      = .error (.nameError "NUMANGS") :=
  ⟨rfl, rfl, rfl, rfl, rfl, fun _ => rfl⟩

/-! ## C3 — logical order repeats a record -/

/-- C3 (code bug): `get_logical_record_order` for `in_cld_rrtm` appends
`'C1.3'` once per cloudy layer (the loop over `range(len(self.LAY))` in
`longwave.py` lines 55–56, identical in `shortwave.py`), so with two cloudy
layers the "no repeated records" logical order contains `'C1.3'` twice —
contradicting the claim and the method's own docstring. -/
theorem c3_logical_order_repeats :
    get_logical_record_order
        [("INFLAG", .sc (.i 0)), ("LAY", .ls [.s (.i 1), .s (.i 2)])] "in_cld_rrtm"
      = .ok ["C1.1", "C1.3", "C1.3"] ∧
    (["C1.1", "C1.3", "C1.3"].count "C1.3") = 2 :=
  ⟨rfl, rfl⟩

/-! ## C2 — explicit vs logical order lengths -/

/-- C2 (counterexample): with `NLAYRS = 0` the explicit order for
`input_rrtm` is strictly shorter than the logical order, refuting
`len(explicit) ≥ len(logical)` as a universal invariant. -/
theorem c2_counterexample :
    get_logical_record_order docC2 "input_rrtm"
      = .ok ["1.1", "1.2", "1.4", "2.1", "2.1.1", "2.1.2"] ∧
    get_explicit_record_order docC2 "input_rrtm" = .ok ["1.1", "1.2", "1.4", "2.1"] ∧
    (["1.1", "1.2", "1.4", "2.1"] : List String).length
      < (["1.1", "1.2", "1.4", "2.1", "2.1.1", "2.1.2"] : List String).length :=
  ⟨rfl, rfl, by decide⟩

theorem length_flatten_replicate (n : Nat) (g : List String) :
    (List.replicate n g).flatten.length = n * g.length := by
  induction n with
  | zero => simp
  | succ k ih =>
      simp [List.replicate_succ, ih]
      ring

/-- C2 (amended): restrict to `input_rrtm` documents with integer control
fields in which every activated repeat count (NLAYRS when IATM = 0; IMMAX
when IATM = 1 and MODEL = 0; LAYX when additionally IXSECT = 1 and
IPRFL = 0) is at least 1.  Then the explicit order is at least as long as
the logical order, with equality iff no activated repeat count exceeds 1. -/
theorem c2_amended (d : Doc) (a n m x xm b md ip im lx : Int)
    (hIATM : getAttr d "IATM" = some (.sc (.i a)))
    (hNL : getAttr d "NLAYRS" = some (.sc (.i n)))
    (hNM : getAttr d "NMOL" = some (.sc (.i m)))
    (hIX : getAttr d "IXSECT" = some (.sc (.i x)))
    (hXM : getAttr d "IXMOLS" = some (.sc (.i xm)))
    (hIB : getAttr d "IBMAX" = some (.sc (.i b)))
    (hMD : getAttr d "MODEL" = some (.sc (.i md)))
    (hIP : getAttr d "IPRFL" = some (.sc (.i ip)))
    (hIM : getAttr d "IMMAX" = some (.sc (.i im)))
    (hLX : getAttr d "LAYX" = some (.sc (.i lx)))
    (hn : a = 0 → 1 ≤ n)
    (him : a = 1 → md = 0 → 1 ≤ im)
    (hlx : a = 1 → x = 1 → ip = 0 → 1 ≤ lx) :
    ∃ L E, get_logical_record_order d "input_rrtm" = .ok L ∧
      get_explicit_record_order d "input_rrtm" = .ok E ∧
      L.length ≤ E.length ∧
      (E.length = L.length ↔
        ((a = 0 → n ≤ 1) ∧ (a = 1 → (md = 0 → im ≤ 1) ∧ (x = 1 → ip = 0 → lx ≤ 1)))) := by
  simp only [get_logical_record_order, get_explicit_record_order, getAttrE, rangeAttrE,
    gtAttrE, hIATM, hNL, hNM, hIX, hXM, hIB, hMD, hIP, hIM, hLX, eqInt, bind, Except.bind,
    decide_eq_true_eq, if_true, reduceIte]
  by_cases ha0 : a = 0
  · have hn1 : (1 : Int) ≤ n := hn ha0
    have hnn : 0 < n.toNat := by omega
    simp only [ha0, if_true, reduceIte, hnn, eq_self_iff_true]
    by_cases hx : x = 1
    · by_cases hm : 7 < m
      · by_cases hxm : 7 < xm
        · simp only [hx, hm, hxm, if_true, reduceIte, eq_self_iff_true]
          refine ⟨_, _, rfl, rfl, ?_, ?_⟩ <;>
            simp [length_flatten_replicate] <;> omega
        · simp only [hx, hm, hxm, if_true, reduceIte, eq_self_iff_true]
          refine ⟨_, _, rfl, rfl, ?_, ?_⟩ <;>
            simp [length_flatten_replicate] <;> omega
      · by_cases hxm : 7 < xm
        · simp only [hx, hm, hxm, if_true, reduceIte, eq_self_iff_true]
          refine ⟨_, _, rfl, rfl, ?_, ?_⟩ <;>
            simp [length_flatten_replicate] <;> omega
        · simp only [hx, hm, hxm, if_true, reduceIte, eq_self_iff_true]
          refine ⟨_, _, rfl, rfl, ?_, ?_⟩ <;>
            simp [length_flatten_replicate] <;> omega
    · by_cases hm : 7 < m
      · simp only [hx, hm, if_true, reduceIte, eq_self_iff_true]
        refine ⟨_, _, rfl, rfl, ?_, ?_⟩ <;>
          simp [length_flatten_replicate] <;> omega
      · simp only [hx, hm, if_true, reduceIte, eq_self_iff_true]
        refine ⟨_, _, rfl, rfl, ?_, ?_⟩ <;>
          simp [length_flatten_replicate] <;> omega
  · by_cases ha1 : a = 1
    · have him1 : md = 0 → 1 ≤ im := him ha1
      have hlx1 : x = 1 → ip = 0 → 1 ≤ lx := hlx ha1
      simp only [ha0, ha1, if_true, reduceIte, eq_self_iff_true]
      by_cases hmd : md = 0
      · have himn : 0 < im.toNat := by have := him1 hmd; omega
        by_cases hx : x = 1
        · by_cases hip : ip = 0
          · have hlxn : 0 < lx.toNat := by have := hlx1 hx hip; omega
            simp only [hmd, hx, hip, if_true, reduceIte, eq_self_iff_true]
            refine ⟨_, _, rfl, rfl, ?_, ?_⟩ <;>
              simp [length_flatten_replicate, apply_ite List.length] <;> omega
          · simp only [hmd, hx, hip, if_true, reduceIte, eq_self_iff_true]
            refine ⟨_, _, rfl, rfl, ?_, ?_⟩ <;>
              simp [length_flatten_replicate, apply_ite List.length] <;> omega
        · simp only [hmd, hx, if_true, reduceIte, eq_self_iff_true]
          refine ⟨_, _, rfl, rfl, ?_, ?_⟩ <;>
            simp [length_flatten_replicate, apply_ite List.length] <;> omega
      · by_cases hx : x = 1
        · by_cases hip : ip = 0
          · have hlxn : 0 < lx.toNat := by have := hlx1 hx hip; omega
            simp only [hmd, hx, hip, if_true, reduceIte, eq_self_iff_true]
            refine ⟨_, _, rfl, rfl, ?_, ?_⟩ <;>
              simp [length_flatten_replicate, apply_ite List.length] <;> omega
          · simp only [hmd, hx, hip, if_true, reduceIte, eq_self_iff_true]
            refine ⟨_, _, rfl, rfl, ?_, ?_⟩ <;>
              simp [length_flatten_replicate, apply_ite List.length]
        · simp only [hmd, hx, if_true, reduceIte, eq_self_iff_true]
          refine ⟨_, _, rfl, rfl, ?_, ?_⟩ <;>
            simp [length_flatten_replicate, apply_ite List.length]
    · simp only [ha0, ha1, reduceIte]
      refine ⟨_, _, rfl, rfl, ?_, ?_⟩ <;> simp

/-- Witness for C2 (amended) at a concrete document with `IATM = 0`,
`NLAYRS = 3`, where the explicit order is strictly longer. -/
theorem c2_amended_witness :
    ∃ L E, get_logical_record_order
        [("IATM", .sc (.i 0)), ("NLAYRS", .sc (.i 3)), ("NMOL", .sc (.i 7)),
         ("IXSECT", .sc (.i 0)), ("IXMOLS", .sc (.i 0)), ("IBMAX", .sc (.i 0)),
         ("MODEL", .sc (.i 0)), ("IPRFL", .sc (.i 0)), ("IMMAX", .sc (.i 1)),
         ("LAYX", .sc (.i 1))] "input_rrtm" = .ok L ∧
      get_explicit_record_order
        [("IATM", .sc (.i 0)), ("NLAYRS", .sc (.i 3)), ("NMOL", .sc (.i 7)),
         ("IXSECT", .sc (.i 0)), ("IXMOLS", .sc (.i 0)), ("IBMAX", .sc (.i 0)),
         ("MODEL", .sc (.i 0)), ("IPRFL", .sc (.i 0)), ("IMMAX", .sc (.i 1)),
         ("LAYX", .sc (.i 1))] "input_rrtm" = .ok E ∧
      L.length ≤ E.length ∧
      (E.length = L.length ↔
        (((0 : Int) = 0 → (3 : Int) ≤ 1) ∧
         ((0 : Int) = 1 → ((0 : Int) = 0 → (1 : Int) ≤ 1) ∧
           ((0 : Int) = 1 → (0 : Int) = 0 → (1 : Int) ≤ 1)))) :=
  c2_amended _ 0 3 7 0 0 0 0 0 1 1 rfl rfl rfl rfl rfl rfl rfl rfl rfl rfl
    (fun _ => by norm_num) (fun h => absurd h (by norm_num))
    (fun h => absurd h (by norm_num))

/-! ## C5 — the INFLAG = 10 (16-band cloud) path -/

/-- C5 (counterexample): with `INFLAG = 10` decoded from the C1.1 header and
a single C1.3 line, `read_in_cld_rrtm` returns a decoded document — it does
not fail at all, let alone fast with a not-implemented error. -/
theorem c5_read_inflag10_succeeds :
    read_in_cld_rrtm readerC5 docC5 linesC5 = .ok docC5final := rfl

/-- C5 (amended): under `INFLAG = 10` with a nonempty cloud-layer list both
order operations raise `NotImplementedError`, but `read_in_cld_rrtm` does
not fail fast: with one layer it decodes normally
(`c5_read_inflag10_succeeds`) and with two layers it decodes both C1.3
records and then fails with `KeyError 'C1.3a'` — the schema tables spell the
sub-record `'C1.3A'` — before any C1.3a value is decoded. -/
theorem c5_amended (d : Doc) (xs : List Elem)
    (h1 : getAttr d "INFLAG" = some (.sc (.i 10)))
    (h2 : getAttr d "LAY" = some (.ls xs)) (h3 : xs ≠ []) :
    get_logical_record_order d "in_cld_rrtm" = .error .notImplemented ∧
    get_explicit_record_order d "in_cld_rrtm" = .error .notImplemented ∧
    read_in_cld_rrtm readerC5 docC5 linesC5b = .error (.keyError "C1.3a") := by
  refine ⟨?_, ?_, rfl⟩
  · unfold get_logical_record_order
    simp [getAttrE, h1, h2, eqInt, lenAttrE, List.length_pos.mpr h3, bind, Except.bind]
  · unfold get_explicit_record_order
    simp [getAttrE, h1, h2, eqInt, listLenOr1, List.length_pos.mpr h3, bind, Except.bind]

/-- Witness for C5 (amended) at a concrete one-layer document. -/
theorem c5_amended_witness :
    get_logical_record_order [("INFLAG", .sc (.i 10)), ("LAY", .ls [.s (.i 1)])] "in_cld_rrtm"
      = .error .notImplemented ∧
    get_explicit_record_order [("INFLAG", .sc (.i 10)), ("LAY", .ls [.s (.i 1)])] "in_cld_rrtm"
      = .error .notImplemented ∧
    read_in_cld_rrtm readerC5 docC5 linesC5b = .error (.keyError "C1.3a") :=
  c5_amended [("INFLAG", .sc (.i 10)), ("LAY", .ls [.s (.i 1)])] [.s (.i 1)] rfl rfl (by decide)

/-! ## C1 — minimal primary file: IATM = 0, NLAYRS = 2, NMOL = 7 -/

/-- Decoded-line oracle for the C1 scenario: a minimal primary file with
IATM = 0, IXSECT = 0, IFORM = 0, NLAYRS = 2, NMOL = 7. -/
def readerC1 : Reader := fun _fmt line =>
  if line = "$T" then some [.s "$T"]
  else if line = "A1" then some [.i 0, .i 0, .i 0, .i 0, .i 0, .i 0]
  else if line = "A2" then some (List.replicate 19 (Scalar.i 0))
  else if line = "A3" then some [.i 0, .i 2, .i 7]
  else if line = "A4" then some [.i 1, .i 2, .i 3, .i 4, .i 5, .i 6]
  else if line = "A5" then some [.i 11, .i 12, .i 13, .i 14, .i 15, .i 16, .i 17, .i 18]
  else if line = "A6" then some [.i 21, .i 22, .i 23, .i 24, .i 25, .i 26]
  else if line = "A7" then some [.i 31, .i 32, .i 33, .i 34, .i 35, .i 36, .i 37, .i 38]
  else none

/-- The lines of the C1 file: sentinel, records 1.2, 1.4, 2.1, two
layers of 2.1.1/2.1.2, end sentinel. -/
def linesC1 : List String := ["$T", "A1", "A2", "A3", "A4", "A5", "A6", "A7", "%"]

/-- The document decoded from the C1 file. -/
def docC1w : Doc :=
  [("CXID", .sc (.s "$T")),
   ("IATM", .sc (.i 0)), ("IXSECT", .sc (.i 0)), ("ISCAT", .sc (.i 0)),
   ("NUMANGS", .sc (.i 0)), ("IOUT", .sc (.i 0)), ("ICLD", .sc (.i 0)),
   ("TBOUND", .sc (.i 0)), ("IEMIS", .sc (.i 0)), ("IREFLECT", .sc (.i 0)),
   ("SEMISS(1)", .sc (.i 0)), ("SEMISS(2)", .sc (.i 0)), ("SEMISS(3)", .sc (.i 0)),
   ("SEMISS(4)", .sc (.i 0)), ("SEMISS(5)", .sc (.i 0)), ("SEMISS(6)", .sc (.i 0)),
   ("SEMISS(7)", .sc (.i 0)), ("SEMISS(8)", .sc (.i 0)), ("SEMISS(9)", .sc (.i 0)),
   ("SEMISS(10)", .sc (.i 0)), ("SEMISS(11)", .sc (.i 0)), ("SEMISS(12)", .sc (.i 0)),
   ("SEMISS(13)", .sc (.i 0)), ("SEMISS(14)", .sc (.i 0)), ("SEMISS(15)", .sc (.i 0)),
   ("SEMISS(16)", .sc (.i 0)),
   ("IFORM", .sc (.i 0)), ("NLAYRS", .sc (.i 2)), ("NMOL", .sc (.i 7)),
   ("PAVE", .ls [.s (.i 1), .s (.i 21)]), ("TAVE", .ls [.s (.i 2), .s (.i 22)]),
   ("PZ(L-1)", .ls [.s (.i 3), .s (.i 23)]), ("TZ(L-1)", .ls [.s (.i 4), .s (.i 24)]),
   ("PZ(L)", .ls [.s (.i 5), .s (.i 25)]), ("TZ(L)", .ls [.s (.i 6), .s (.i 26)]),
   ("WKL(1,L)", .ls [.s (.i 11), .s (.i 31)]), ("WKL(2,L)", .ls [.s (.i 12), .s (.i 32)]),
   ("WKL(3,L)", .ls [.s (.i 13), .s (.i 33)]), ("WKL(4,L)", .ls [.s (.i 14), .s (.i 34)]),
   ("WKL(5,L)", .ls [.s (.i 15), .s (.i 35)]), ("WKL(6,L)", .ls [.s (.i 16), .s (.i 36)]),
   ("WKL(7,L)", .ls [.s (.i 17), .s (.i 37)]), ("WBROAD(L)", .ls [.s (.i 18), .s (.i 38)])]

/-- C1: the minimal well-formed primary file `linesC1`, whose decoded control
fields under the line oracle `readerC1` are IATM = 0 (with IXSECT = 0),
IFORM = 0, NLAYRS = 2, NMOL = 7, reads into the document `docC1w`, in which
every field of the per-layer records 2.1.1 (PAVE, TAVE, PZ/TZ) and 2.1.2
(WKL(1..7), WBROAD) is a length-2 list in file order; on that document the
logical order does not contain record '2.1.3' and the explicit order lists
'2.1.1' and '2.1.2' exactly twice each. -/
theorem c1_minimal_read :
    read_input_rrtm readerC1 [] linesC1 = .ok docC1w ∧
    (["PAVE", "TAVE", "PZ(L-1)", "TZ(L-1)", "PZ(L)", "TZ(L)",
      "WKL(1,L)", "WKL(2,L)", "WKL(3,L)", "WKL(4,L)", "WKL(5,L)", "WKL(6,L)",
      "WKL(7,L)", "WBROAD(L)"].all fun n =>
        match getAttr docC1w n with
        | some (.ls xs) => xs.length == 2
        | _ => false) = true ∧
    get_logical_record_order docC1w "input_rrtm"
      = .ok ["1.1", "1.2", "1.4", "2.1", "2.1.1", "2.1.2"] ∧
    (["1.1", "1.2", "1.4", "2.1", "2.1.1", "2.1.2"].count "2.1.3" = 0) ∧
    get_explicit_record_order docC1w "input_rrtm"
      = .ok ["1.1", "1.2", "1.4", "2.1", "2.1.1", "2.1.2", "2.1.1", "2.1.2"] ∧
    (["1.1", "1.2", "1.4", "2.1", "2.1.1", "2.1.2", "2.1.1", "2.1.2"].count "2.1.1" = 2 ∧
     ["1.1", "1.2", "1.4", "2.1", "2.1.1", "2.1.2", "2.1.1", "2.1.2"].count "2.1.2" = 2) := by
  refine ⟨rfl, by decide, rfl, by decide, rfl, by decide, by decide⟩

/-! ## C6 — the greedy multi-line record reader -/

theorem keysContain_true_iff (l : List (String × Scalar)) (nm : String) :
    keysContain l nm = true ↔ nm ∈ l.map Prod.fst := by
  simp only [keysContain, List.any_eq_true, decide_eq_true_eq, List.mem_map]

theorem keysContain_append (r1 r2 : List (String × Scalar)) (k : String) :
    keysContain (r1 ++ r2) k = (keysContain r1 k || keysContain r2 k) := by
  simp [keysContain, List.any_append]

theorem dictInsert_fresh (r : List (String × Scalar)) (k : String) (v : Scalar)
    (h : keysContain r k = false) : dictInsert r k v = r ++ [(k, v)] := by
  induction r with
  | nil => rfl
  | cons p rest ih =>
      simp only [keysContain, List.any_cons, Bool.or_eq_false_iff] at h
      obtain ⟨h1, h2⟩ := h
      have hne : ¬p.1 = k := by simpa using h1
      simp only [dictInsert, if_neg hne, List.cons_append, List.cons.injEq, true_and]
      exact ih h2

theorem map_fst_zip_take (l : List String) :
    ∀ v : List Scalar, (l.zip v).map Prod.fst = l.take v.length := by
  induction l with
  | nil => intro v; simp
  | cons a l' ih =>
      intro v
      cases v with
      | nil => simp
      | cons b v' => simp [ih v']

theorem foldl_dictInsert_fresh :
    ∀ (ps r : List (String × Scalar)), (ps.map Prod.fst).Nodup →
      (∀ p ∈ ps, keysContain r p.1 = false) →
      ps.foldl (fun r p => dictInsert r p.1 p.2) r = r ++ ps := by
  intro ps
  induction ps with
  | nil => intro r _ _; simp
  | cons p ps' ih =>
      intro r hnd hfresh
      simp only [List.foldl_cons]
      rw [dictInsert_fresh r p.1 p.2 (hfresh p (List.mem_cons_self _ _))]
      rw [ih (r ++ [(p.1, p.2)]) (by simpa using (List.nodup_cons.mp (by simpa using hnd)).2)]
      · simp
      · intro q hq
        rw [keysContain_append, hfresh q (List.mem_cons_of_mem _ hq), Bool.false_or]
        have hne : ¬p.1 = q.1 := by
          intro hh
          exact (List.nodup_cons.mp (by simpa using hnd)).1
            (hh ▸ List.mem_map_of_mem Prod.fst hq)
        simp only [keysContain, List.any_cons, List.any_nil, Bool.or_false]
        simpa using hne

theorem zip_append_drop {α β : Type} :
    ∀ (l : List α) (v w : List β),
      l.zip v ++ (l.drop v.length).zip w = l.zip (v ++ w) := by
  intro l
  induction l with
  | nil => intro v w; simp
  | cons a l' ih =>
      intro v w
      cases v with
      | nil => simp
      | cons b v' => simp [ih v']

theorem filter_keys_zip (rest : List String) (r : List (String × Scalar)) (v : List Scalar)
    (hnd : rest.Nodup) (hfresh : ∀ nm ∈ rest, keysContain r nm = false) :
    rest.filter (fun nm => !(keysContain (r ++ rest.zip v) nm)) = rest.drop v.length := by
  have hcongr : rest.filter (fun nm => !(keysContain (r ++ rest.zip v) nm))
      = rest.filter (fun nm => !(decide (nm ∈ rest.take v.length))) := by
    apply List.filter_congr
    intro nm hnm
    have h1 : keysContain (r ++ rest.zip v) nm
        = (keysContain r nm || keysContain (rest.zip v) nm) := keysContain_append _ _ _
    rw [h1, hfresh nm hnm, Bool.false_or]
    congr 1
    by_cases hmem : nm ∈ rest.take v.length
    · rw [(keysContain_true_iff _ _).mpr (by rw [map_fst_zip_take]; exact hmem)]
      simp [hmem]
    · have : ¬keysContain (rest.zip v) nm = true := by
        rw [keysContain_true_iff, map_fst_zip_take]; exact hmem
      simp only [Bool.not_eq_true] at this
      rw [this]
      simp [hmem]
  rw [hcongr]
  have hsplit : rest.filter (fun nm => !(decide (nm ∈ rest.take v.length)))
      = (rest.take v.length ++ rest.drop v.length).filter
          (fun nm => !(decide (nm ∈ rest.take v.length))) := by
    rw [List.take_append_drop]
  rw [hsplit, List.filter_append]
  have hdisj : List.Disjoint (rest.take v.length) (rest.drop v.length) := by
    have := hnd
    rw [← List.take_append_drop v.length rest] at this
    exact (List.nodup_append.mp this).2.2
  have h2 : (rest.take v.length).filter (fun nm => !(decide (nm ∈ rest.take v.length))) = [] := by
    apply List.filter_eq_nil_iff.mpr
    intro a ha
    simp [ha]
  have h3 : (rest.drop v.length).filter (fun nm => !(decide (nm ∈ rest.take v.length)))
      = rest.drop v.length := by
    apply List.filter_eq_self.mpr
    intro a ha
    have hnt : a ∉ rest.take v.length := fun hmem => hdisj hmem ha
    simp [hnt]
  rw [h2, h3, List.nil_append]

theorem ceil_div_step (r k : Nat) (hk : 1 ≤ k) (hr : 1 ≤ r) :
    (r + k - 1) / k = ((r - k) + k - 1) / k + 1 := by
  rcases le_or_lt r k with h | h
  · have h1 : r + k - 1 = (r - 1) + k := by omega
    have h2 : r - k = 0 := by omega
    rw [h1, Nat.add_div_right _ (by omega), h2]
    rw [Nat.div_eq_of_lt (by omega), Nat.div_eq_of_lt (by omega)]
  · have h1 : r + k - 1 = ((r - k) + k - 1) + k := by omega
    rw [h1, Nat.add_div_right _ (by omega)]

/-- Invariant of the greedy while-loop: with `rest` the names still missing
(the filter of `names` against the current record), nodup names, the record
and `rest` jointly accounting for `inames`, and a window of
`⌈rest.length / k⌉` further decodable lines of `k` values each, the loop
extends the record by `rest` zipped against the concatenated decoded stream
and consumes exactly that many lines. -/
theorem greedy_go_spec (reader : Reader) (fmt : String) (lines : List String)
    (inames k : Nat) (hk : 1 ≤ k) :
    ∀ (vss : List (List Scalar)) (names rest : List String)
      (record : List (String × Scalar)) (read_i : Nat),
      names.Nodup →
      names.filter (fun nm => !(keysContain record nm)) = rest →
      record.length + rest.length = inames →
      vss.length = (rest.length + k - 1) / k →
      (∀ vs ∈ vss, vs.length = k) →
      (∀ j (hj : j < vss.length),
        (lines[read_i + j]?).bind (reader fmt) = some (vss.get ⟨j, hj⟩)) →
      greedy_go reader fmt lines inames names record read_i
        = .ok (record ++ rest.zip vss.flatten, read_i + vss.length) := by
  intro vss
  induction vss with
  | nil =>
      intro names rest record read_i _ _ hsum hvlen _ _
      have hr0 : rest.length = 0 := by
        have := (Nat.div_eq_zero_iff (by omega : 0 < k)).mp hvlen.symm
        omega
      rw [greedy_go]
      rw [if_neg (by omega)]
      simp [List.zip_nil_right]
  | cons v0 vrest ih =>
      intro names rest record read_i hnd hfil hsum hvlen hvs hwin
      have hkv0 : v0.length = k := hvs v0 (List.mem_cons_self _ _)
      have h1 : 1 ≤ (rest.length + k - 1) / k := by
        rw [← hvlen]
        exact Nat.succ_le_succ (Nat.zero_le _)
      have hrestpos : 1 ≤ rest.length := by
        have := (Nat.one_le_div_iff (by omega : 0 < k)).mp h1
        omega
      have hrnd : rest.Nodup := hfil ▸ hnd.filter _
      have hfresh : ∀ nm ∈ rest, keysContain record nm = false := by
        intro nm hnm
        have := List.of_mem_filter (hfil ▸ hnm)
        simpa using this
      have hwin0 := hwin 0 (by simp)
      rw [Nat.add_zero] at hwin0
      cases hl : lines[read_i]? with
      | none => rw [hl] at hwin0; simp at hwin0
      | some l0 =>
          rw [hl] at hwin0
          simp only [Option.some_bind] at hwin0
          have hr0 : reader fmt l0 = some v0 := by simpa using hwin0
          have hlt : read_i < lines.length := by
            by_contra hcon
            rw [List.getElem?_eq_none (by omega)] at hl
            cases hl
          have hget : lines[read_i] = l0 := by
            have := List.getElem?_eq_getElem hlt
            rw [hl] at this
            exact (Option.some.injEq _ _ ▸ this).symm
          rw [greedy_go]
          rw [if_pos (by omega)]
          simp only [hfil]
          rw [dif_pos hlt, hget, hr0]
          dsimp only
          have hfoldr : ((rest.zip v0).foldl (fun r p => dictInsert r p.1 p.2) record)
              = record ++ rest.zip v0 := by
            apply foldl_dictInsert_fresh
            · rw [map_fst_zip_take]
              exact (List.take_sublist _ _).nodup hrnd
            · intro p hp
              apply hfresh
              have : p.1 ∈ (rest.zip v0).map Prod.fst := List.mem_map_of_mem Prod.fst hp
              rw [map_fst_zip_take] at this
              exact List.mem_of_mem_take this
          rw [hfoldr]
          have hfil' : rest.filter (fun nm => !(keysContain (record ++ rest.zip v0) nm))
              = rest.drop k := by
            rw [filter_keys_zip rest record v0 hrnd hfresh, hkv0]
          have hsum' : (record ++ rest.zip v0).length + (rest.drop k).length = inames := by
            simp only [List.length_append, List.length_zip, List.length_drop, hkv0]
            omega
          have hvlen' : vrest.length = ((rest.drop k).length + k - 1) / k := by
            have hstep := ceil_div_step rest.length k hk hrestpos
            have : vrest.length + 1 = (rest.length + k - 1) / k := by
              simpa using hvlen
            rw [hstep] at this
            simp only [List.length_drop]
            omega
          have hwin' : ∀ j (hj : j < vrest.length),
              (lines[(read_i + 1) + j]?).bind (reader fmt)
                = some (vrest.get ⟨j, hj⟩) := by
            intro j hj
            have := hwin (j + 1) (by simpa using Nat.succ_lt_succ hj)
            rw [show read_i + (j + 1) = read_i + 1 + j by omega] at this
            exact this
          rw [ih rest (rest.drop k) (record ++ rest.zip v0) (read_i + 1)
            hrnd hfil' hsum' hvlen' (fun vs hvs' => hvs vs (List.mem_cons_of_mem _ hvs')) hwin']
          have hz : (record ++ rest.zip v0) ++ (rest.drop k).zip vrest.flatten
              = record ++ rest.zip (v0 :: vrest).flatten := by
            rw [List.append_assoc, ← hkv0, zip_append_drop, List.flatten_cons]
          rw [hz]
          have hc : read_i + 1 + vrest.length = read_i + (v0 :: vrest).length := by
            simp only [List.length_cons]
            omega
          rw [hc]

/-- C6: for the greedy record 3.3B, with a resolved field-name list of `n ≥ 1`
distinct names and a per-line decoder yielding exactly `k ≥ 1` values per
physical line, `read_greedy_record` consumes exactly `⌈n / k⌉` consecutive
lines and no more (final cursor `read_i + vss.length` with
`vss.length = ⌈n / k⌉`), and assigns every name exactly one decoded value, in
field-declaration order across the consumed lines (the document update is the
fold of `names.zip vss.flatten`). -/
theorem c6_greedy_read (reader : Reader) (lines : List String) (doc : Doc) (read_i : Nat)
    (names : List String) (k : Nat) (vss : List (List Scalar))
    (hnames : get_fields doc "3.3B" = .ok names)
    (hnd : names.Nodup) (hnne : names ≠ [])
    (hk : 1 ≤ k)
    (hvs : ∀ vs ∈ vss, vs.length = k)
    (hvlen : vss.length = (names.length + k - 1) / k)
    (hwin : ∀ j (hj : j < vss.length),
      (lines[read_i + j]?).bind (reader "(8F10.3)") = some (vss.get ⟨j, hj⟩)) :
    read_greedy_record reader lines ⟨doc, read_i⟩ "3.3B"
      = .ok ⟨(names.zip vss.flatten).foldl (fun dd p => setAttr dd p.1 (.sc p.2)) doc,
             read_i + vss.length⟩ := by
  have hlen1 : 1 ≤ names.length := List.length_pos.mpr hnne
  have hv1 : 1 ≤ vss.length := by
    rw [hvlen]
    exact (Nat.one_le_div_iff (by omega)).mpr (by omega)
  cases vss with
  | nil => simp at hv1
  | cons v0 vrest =>
      have hkv0 : v0.length = k := hvs v0 (List.mem_cons_self _ _)
      have hwin0 := hwin 0 (by simp)
      rw [Nat.add_zero] at hwin0
      cases hl : lines[read_i]? with
      | none => rw [hl] at hwin0; simp at hwin0
      | some l0 =>
          rw [hl] at hwin0
          simp only [Option.some_bind] at hwin0
          have hr0 : reader "(8F10.3)" l0 = some v0 := by simpa using hwin0
          have hfoldr : ((names.zip v0).foldl (fun r p => dictInsert r p.1 p.2) [])
              = names.zip v0 := by
            have := foldl_dictInsert_fresh (names.zip v0) [] ?_ ?_
            · simpa using this
            · rw [map_fst_zip_take]
              exact (List.take_sublist _ _).nodup hnd
            · intro p _; rfl
          have hfil : names.filter (fun nm => !(keysContain (names.zip v0) nm))
              = names.drop k := by
            have := filter_keys_zip names [] v0 hnd (fun nm _ => rfl)
            rw [List.nil_append] at this
            rw [this, hkv0]
          have hsum : (names.zip v0).length + (names.drop k).length = names.length := by
            simp only [List.length_zip, List.length_drop, hkv0]
            omega
          have hvlen' : vrest.length = ((names.drop k).length + k - 1) / k := by
            have hstep := ceil_div_step names.length k hk hlen1
            have : vrest.length + 1 = (names.length + k - 1) / k := by
              simpa using hvlen
            rw [hstep] at this
            simp only [List.length_drop]
            omega
          have hwin' : ∀ j (hj : j < vrest.length),
              (lines[(read_i + 1) + j]?).bind (reader "(8F10.3)")
                = some (vrest.get ⟨j, hj⟩) := by
            intro j hj
            have := hwin (j + 1) (by simpa using Nat.succ_lt_succ hj)
            rw [show read_i + (j + 1) = read_i + 1 + j by omega] at this
            exact this
          have hgo := greedy_go_spec reader "(8F10.3)" lines names.length k hk
            vrest names (names.drop k) (names.zip v0) (read_i + 1)
            hnd hfil hsum hvlen'
            (fun vs hvs' => hvs vs (List.mem_cons_of_mem _ hvs')) hwin'
          simp only [read_greedy_record, hl, hnames, hr0, bind, Except.bind, get_format,
            hfoldr]
          rw [hgo]
          have hz : (names.zip v0) ++ (names.drop k).zip vrest.flatten
              = names.zip (v0 :: vrest).flatten := by
            rw [← hkv0, zip_append_drop, List.flatten_cons]
          rw [hz]
          have hc : read_i + 1 + vrest.length = read_i + (v0 :: vrest).length := by
            simp only [List.length_cons]
            omega
          rw [hc]

/-- Decoded-line oracle for the C6 witness: each greedy line decodes to two
values. -/
def readerC6 : Reader := fun _fmt line =>
  if line = "g1" then some [.i 1, .i 2]
  else if line = "g2" then some [.i 3, .i 4]
  else none

/-- A document with `IBMAX = 3`, so record 3.3B resolves to the three distinct
names ZBND(1..3). -/
def docC6 : Doc := [("IBMAX", .sc (.i 3))]

/-- Greedy-record input lines for the C6 witness. -/
def linesC6 : List String := ["g1", "g2", "x"]

/-- The resolved 3.3B field-name list for `docC6`. -/
def namesC6 : List String := ["ZBND(1)", "ZBND(2)", "ZBND(3)"]

/-- The decoded window for the C6 witness: two lines of two values each. -/
def vssC6 : List (List Scalar) := [[.i 1, .i 2], [.i 3, .i 4]]

/-- Witness for C6: three names, two values per line — exactly
`⌈3/2⌉ = 2` lines consumed, names assigned in declaration order. -/
theorem c6_greedy_read_witness :
    read_greedy_record readerC6 linesC6 ⟨docC6, 0⟩ "3.3B"
      = .ok ⟨(namesC6.zip vssC6.flatten).foldl (fun dd p => setAttr dd p.1 (.sc p.2)) docC6,
             0 + vssC6.length⟩ :=
  c6_greedy_read readerC6 linesC6 docC6 0 namesC6 2 vssC6
    rfl (by decide) (by decide) (by decide)
    (by decide)
    rfl
    (by
      intro j hj
      have hj2 : j < 2 := hj
      interval_cases j <;> rfl)

/-! ## C7 — `Input.write` in `'auto'` mode -/

/-- C7 (code bug): `write` on a document with `ICLD = 1` writes `INPUT_RRTM`
and then crashes with `UnboundLocalError` — the `methods` dict maps
`'in_cld_rrtm'` to `write_in_aer_rrtm`, whose
`get_explicit_record_order('in_aer_rrtm')` call falls through every branch
and returns the never-assigned local `records` — so no `IN_CLD_RRTM` file is
produced; and with `IAER = 1` the file named `IN_AER_RRTM` is written with
the `in_cld_rrtm` explicit-order records (the swapped `write_in_cld_rrtm`). -/
theorem c7_write_auto_swap :
    (write docC7a "auto").1.map Prod.fst = ["INPUT_RRTM"] ∧
    (write docC7a "auto").2 = some (.unboundLocal "records") ∧
    (write docC7b "auto").1.map Prod.fst = ["INPUT_RRTM", "IN_AER_RRTM"] ∧
    (write docC7b "auto").2 = none ∧
    ((write docC7b "auto").1)[1]?.map Prod.snd
      = (write_in_cld_rrtm docC7b).toOption.map Prod.fst :=
  ⟨rfl, rfl, rfl, rfl, rfl⟩

/-! ## C8 — destructive encode and the write path -/

/-- C8 (counterexample): the write path snapshots internally
(`rundupe = self.copy()` in `write_input_rrtm`), so the popped lists drain
the copy, `self` is returned unchanged, and a second pass over the same
document emits exactly the same — correct, non-empty — lines: here the 1.4
record's `SEMISS(1)` slot carries `7`, the head of the list, in both passes. -/
theorem c8_counterexample :
    write_input_rrtm docC8 = .ok (linesC8, docC8) ∧
    (write_input_rrtm docC8 >>= fun p => write_input_rrtm p.2) = .ok (linesC8, docC8) :=
  ⟨rfl, rfl⟩

theorem popField_getAttr_ne (acc acc' : List Elem × Doc) (key k : String) (h : k ≠ key)
    (hok : popField acc key = .ok acc') : getAttr acc'.2 k = getAttr acc.2 k := by
  unfold popField getAttrE at hok
  cases hv : getAttr acc.2 key with
  | none => simp [hv, bind, Except.bind] at hok
  | some v =>
      cases v with
      | sc a =>
          simp [hv, bind, Except.bind] at hok
          simp [← hok]
      | ls xs =>
          cases xs with
          | nil => simp [hv, bind, Except.bind] at hok
          | cons x rest =>
              simp [hv, bind, Except.bind] at hok
              simp [← hok, getAttr_setAttr_ne _ _ _ _ h]

theorem write_fold_preserves (names : List String) :
    ∀ (acc res : List Elem × Doc) (k : String), k ∉ names →
      names.foldlM popField acc = .ok res → getAttr res.2 k = getAttr acc.2 k := by
  induction names with
  | nil =>
      intro acc res k _ hok
      simp only [List.foldlM_nil, pure, Except.pure, Except.ok.injEq] at hok
      simp [← hok]
  | cons nm rest ih =>
      intro acc res k hk hok
      rw [List.foldlM_cons] at hok
      cases hstep : popField acc nm with
      | error e => simp [hstep, bind, Except.bind] at hok
      | ok acc2 =>
          simp only [hstep, bind, Except.bind] at hok
          have h1 := ih acc2 res k (fun hh => hk (List.mem_cons_of_mem _ hh)) hok
          have h2 := popField_getAttr_ne acc acc2 nm k
            (fun hh => hk (hh ▸ List.mem_cons_self _ _)) hstep
          rw [h1, h2]

theorem write_fold_pops (names : List String) :
    ∀ (acc res : List Elem × Doc) (name : String) (x : Elem) (xs : List Elem),
      names.Nodup → name ∈ names →
      getAttr acc.2 name = some (.ls (x :: xs)) →
      names.foldlM popField acc = .ok res →
      getAttr res.2 name = some (.ls xs) := by
  induction names with
  | nil => intro _ _ _ _ _ _ hmem; cases hmem
  | cons nm rest ih =>
      intro acc res name x xs hnd hmem hval hok
      rw [List.foldlM_cons] at hok
      cases hstep : popField acc nm with
      | error e => simp [hstep, bind, Except.bind] at hok
      | ok acc2 =>
          simp only [hstep, bind, Except.bind] at hok
          rcases List.mem_cons.mp hmem with heq | hmem'
          · subst heq
            have hnm : name ∉ rest := (List.nodup_cons.mp hnd).1
            have hacc2 : getAttr acc2.2 name = some (.ls xs) := by
              unfold popField getAttrE at hstep
              simp [hval, bind, Except.bind] at hstep
              simp [← hstep, getAttr_setAttr_self]
            rw [write_fold_preserves rest acc2 res name hnm hok, hacc2]
          · have hne : name ≠ nm := by
              intro hh
              exact (List.nodup_cons.mp hnd).1 (hh ▸ hmem')
            have hacc2 : getAttr acc2.2 name = some (.ls (x :: xs)) := by
              rw [popField_getAttr_ne acc acc2 nm name hne hstep, hval]
            exact ih acc2 res name x xs (List.nodup_cons.mp hnd).2 hmem' hacc2 hok

/-- C8 (amended): `write_record` is destructive on the instance it is invoked
on — each occurrence pops the first remaining element of every list-valued
field of the record — but the write entry points snapshot internally
(`rundupe = self.copy()`), so `write_input_rrtm` leaves the document it is
called on unchanged and running the write path repeatedly on the same
document keeps producing the same output; the caller need not snapshot. -/
theorem c8_amended :
    (∀ (d : Doc) (rec : String) (l : Line) (d' : Doc) (names : List String)
        (name : String) (x : Elem) (xs : List Elem),
        get_fields d rec = .ok names → names.Nodup →
        write_record d rec = .ok (l, d') → name ∈ names →
        getAttr d name = some (.ls (x :: xs)) →
        getAttr d' name = some (.ls xs)) ∧
    (∀ (d : Doc) (l1 : List Line) (d1 : Doc), write_input_rrtm d = .ok (l1, d1) →
        d1 = d ∧ write_input_rrtm d1 = .ok (l1, d1)) := by
  constructor
  · intro d rec l d' names name x xs hnames hnd hok hmem hval
    unfold write_record at hok
    cases hfmt : get_format d rec with
    | error e => simp [hfmt, bind, Except.bind] at hok
    | ok fmt =>
        simp only [hfmt, hnames, bind, Except.bind] at hok
        cases hfold : names.foldlM popField (([], d) : List Elem × Doc) with
        | error e => simp [hfold] at hok
        | ok res =>
            simp only [hfold] at hok
            obtain ⟨rf, d2⟩ := res
            simp only [Except.ok.injEq, Prod.mk.injEq] at hok
            have hd' : d2 = d' := hok.2
            subst hd'
            exact write_fold_pops names ([], d) (rf, d2) name x xs hnd hmem hval hfold
  · intro d l1 d1 h
    unfold write_input_rrtm at h
    cases hrecs : get_explicit_record_order d "input_rrtm" with
    | error e => simp [hrecs, bind, Except.bind] at h
    | ok recs =>
        simp only [hrecs, bind, Except.bind] at h
        cases hloop : write_records_loop recs d with
        | error e => simp [hloop] at h
        | ok res =>
            obtain ⟨ls, dd⟩ := res
            simp only [hloop, Except.ok.injEq, Prod.mk.injEq] at h
            obtain ⟨hl, hd⟩ := h
            subst hd
            subst hl
            constructor
            · rfl
            · unfold write_input_rrtm
              simp [hrecs, hloop, bind, Except.bind]

/-- Witness for C8 (amended): popping `HBOUND` from a two-element list on
record 3.2 leaves the one-element tail, and the full write path on `docC8`
returns the document unchanged. -/
theorem c8_amended_witness :
    getAttr docC8w' "HBOUND" = some (.ls [.s (.i 2)]) ∧
    write_input_rrtm docC8 = .ok (linesC8, docC8) := by
  constructor
  · exact c8_amended.1 docC8w "3.2" lineC8w docC8w' ["HBOUND", "HTOA"] "HBOUND"
      (.s (.i 1)) [.s (.i 2)] rfl (by decide) rfl (by decide) rfl
  · exact (c8_amended.2 docC8 linesC8 docC8 rfl).2

end Parserrtm
